import Mathlib

/-!
Shallow embedding of the EPCET library dashboard frontend
(`frontend/app.py`) and verification of its specification claims.

The file embeds, as executable Lean definitions translated from the
Python source:
  * the API client `LibraryAPI._make_request` (status branching, error
    banners, exception mapping);
  * the connection probe `check_connection` and the dashboard page
    `main_page` as a render/call trace;
  * the borrow-flow availability filter, the return-flow selector
    string round-trip, the nested bookId/userId projection, the
    add-book / add-user form submission handlers, and the analytics
    y-column fallback.
-/

namespace EpcetLib

/-- A parsed JSON value, the result of `response.json()` in the client. -/
inductive JVal where
  | null
  | bool (b : Bool)
  | num (n : Int)
  | str (s : String)
  | arr (xs : List JVal)
  | obj (fields : List (String × JVal))
deriving Repr

/-- Outcome of performing the HTTP call inside `_make_request`:
either a response arrived (with a status code and a body that either
parses as JSON or raises on `response.json()`), or the transport layer
raised `ConnectionError`, `Timeout`, or some other exception. -/
inductive ReqOutcome where
  | response (statusCode : Nat) (body : Except String JVal)
  | connError
  | timeoutErr
  | otherExc (msg : String)
deriving Repr

/-- A user-visible error banner emitted by `st.error` inside
`_make_request`. `apiError` carries the status code and the value of
`response.json().get('error', 'Unknown error')`. -/
inductive Banner where
  | apiError (code : Nat) (msg : JVal)
  | connBanner
  | timeoutBanner
  | excBanner (msg : String)
deriving Repr

/-- The HTTP methods `_make_request` dispatches on; any other method
string leaves the local variable `response` unbound, so the later
`response.status_code` access raises `NameError`. -/
def validMethod (m : String) : Bool :=
  m == "GET" || m == "POST" || m == "PUT" || m == "DELETE"

/-- `response.json().get('error', 'Unknown error')`: succeeds only when
the parsed body is a JSON object (on lists, strings, numbers, booleans
and null, `.get` raises `AttributeError`). -/
def errorMsgOf (j : JVal) : Except String JVal :=
  match j with
  | .obj fields => .ok ((fields.lookup "error").getD (.str "Unknown error"))
  | _ => .error "AttributeError: get"

/-- Embedding of `LibraryAPI._make_request`.  Returns the value handed
back to the caller (the parsed body or `none`) together with the list
of error banners displayed.  Every exception raised inside the `try`
block is caught by one of the `except` clauses and mapped to `none`
plus a banner; a non-HTTP-method string never performs a request and
ends in the `except Exception` clause via the `NameError` on the
unbound `response` variable. -/
def make_request (method : String) (outcome : ReqOutcome) :
    Option JVal × List Banner :=
  if validMethod method then
    match outcome with
    | .response code body =>
        if code == 200 then
          match body with
          | .ok j => (some j, [])
          | .error e => (none, [.excBanner e])
        else
          match body with
          | .ok j =>
              match errorMsgOf j with
              | .ok msg => (none, [.apiError code msg])
              | .error e => (none, [.excBanner e])
          | .error e => (none, [.excBanner e])
    | .connError => (none, [.connBanner])
    | .timeoutErr => (none, [.timeoutBanner])
    | .otherExc m => (none, [.excBanner m])
  else
    (none, [.excBanner "NameError: name response is not defined"])

/-- The concrete status-200 body `{"success": false, "error": "boom"}`
used to probe the client's handling of an embedded failure flag. -/
def successFalseBody : JVal :=
  .obj [("success", .bool false), ("error", .str "boom")]

/-! ### Return-flow selector string (transactions page, tab "Return Book") -/

/-- The separator sequence `" - "` used both when building the
transaction option string and when splitting it back apart. -/
def sepL : List Char := [' ', '-', ' ']

/-- The literal segment `" (User: "` of the option string. -/
def userSeg : List Char := (" (User: ").data

/-- The literal segment `", Due: "` of the option string. -/
def dueSeg : List Char := (", Due: ").data

/-- The closing `")"` of the option string. -/
def closeSeg : List Char := (")").data

/-- Embedding of the f-string
`f"{row['transactionId']} - {book_title} (User: {user_name}, Due: {due_date})"`
that builds one entry of the return-flow select box. -/
def buildTransactionOption (tid title uname due : List Char) : List Char :=
  tid ++ sepL ++ title ++ userSeg ++ uname ++ dueSeg ++ due ++ closeSeg

/-- Embedding of Python `s.split(sep)[0]`: the portion of `s` before
the first occurrence of `sep` (all of `s` when `sep` does not occur). -/
def splitHead (sep : List Char) : List Char → List Char
  | [] => []
  | c :: rest => if sep.isPrefixOf (c :: rest) then [] else c :: splitHead sep rest

/-- The transaction id parsed back out of a selected option string:
`selected_transaction.split(" - ")[0]`. -/
def parseTransactionId (selected : List Char) : List Char :=
  splitHead sepL selected

/-! ### Borrow-flow availability filter (transactions page, tab "Borrow Book") -/

/-- A book row as displayed by the frontend; only the fields the
borrow flow touches are modelled. -/
structure Book where
  id : String
  title : String
  author : String
  availableCopies : Nat
deriving Repr, DecidableEq

/-- Embedding of `available_books = df_books[df_books['availableCopies'] > 0]`:
the row filter keeps exactly the rows whose `availableCopies` exceeds 0,
in their original order. -/
def availableBooks (books : List Book) : List Book :=
  books.filter (fun b => decide (b.availableCopies > 0))

/-- Embedding of `book_options = available_books['title'] + " by " + available_books['author']`. -/
def borrowBookOptions (books : List Book) : List String :=
  (availableBooks books).map (fun b => b.title ++ " by " ++ b.author)

/-! ### Analytics y-column fallback (analytics page, tab "Most Borrowed") -/

/-- A dataframe column of the most-borrowed payload: its name and
whether its dtype is numeric (what `select_dtypes(include=['number'])`
would keep). -/
structure Col where
  name : String
  numeric : Bool
deriving Repr, DecidableEq

/-- Embedding of the y-column selection in `analytics_dashboard`:
prefer a column named `borrowCount`, else one named `count` (by name
only, regardless of dtype), else the first numeric column, else the
second column of the frame.  `none` models the `IndexError` raised by
`df.columns[1]` when no numeric column exists and the frame has fewer
than two columns. -/
def selectYColumn (cols : List Col) : Option String :=
  if cols.any (fun c => c.name == "borrowCount") then some "borrowCount"
  else if cols.any (fun c => c.name == "count") then some "count"
  else
    match cols.find? (fun c => c.numeric) with
    | some c => some c.name
    | none => (cols[1]?).map (fun c => c.name)

/-! ### Nested bookId/userId projection in the transaction displays -/

/-- The value of a transaction row's `bookId`/`userId` field after
JSON parsing: either a populated object (a dict of string attributes)
or a plain id string. -/
inductive PyField where
  | obj (attrs : List (String × String))
  | str (s : String)
deriving Repr, DecidableEq

/-- `isinstance(x, dict)`. -/
def PyField.isDict : PyField → Bool
  | .obj _ => true
  | .str _ => false

/-- Embedding of `row[field][key] if isinstance(row[field], dict) else 'Unknown'`
(used by the return-flow selector, the all-transactions table and the
overdue table).  The error case models the `KeyError` raised by the
bare subscript when the dict lacks `key`. -/
def nestedDisplay (f : PyField) (key : String) : Except String String :=
  match f with
  | .obj attrs =>
      match attrs.lookup key with
      | some v => .ok v
      | none => .error "KeyError"
  | .str _ => .ok "Unknown"

/-- Embedding of `x.get(key, dflt)` applied to a field value that may
not be a dict: on a plain string, `.get` raises `AttributeError`. -/
def pyGet (f : PyField) (key dflt : String) : Except String String :=
  match f with
  | .obj attrs => .ok ((attrs.lookup key).getD dflt)
  | .str _ => .error "AttributeError"

/-- A transaction row as consumed by the display code. `dueDate`,
`returnDate` and `overdueDays` are optional because the code reads
them with `row.get(...)`. -/
structure TxRow where
  transactionId : String
  status : String
  borrowDate : String
  dueDate : Option String
  returnDate : Option String
  overdueDays : Option String
  bookId : PyField
  userId : PyField
deriving Repr, DecidableEq

/-- One displayed row of the all-transactions table (lines 624-632):
`Book` and `User` come from the guarded nested projection, `Due Date`
and `Return Date` from `row.get(..., '')`. -/
structure TxDisplayRow where
  txId : String
  book : Except String String
  user : Except String String
  status : String
  borrowDate : String
  dueDate : String
  returnDate : String
deriving Repr

/-- Embedding of the per-row dict built for the all-transactions table. -/
def allTransactionsRow (r : TxRow) : TxDisplayRow :=
  { txId := r.transactionId
    book := nestedDisplay r.bookId "title"
    user := nestedDisplay r.userId "name"
    status := r.status
    borrowDate := r.borrowDate
    dueDate := r.dueDate.getD ""
    returnDate := r.returnDate.getD "" }

/-- One displayed row of the overdue table (lines 647-653). -/
structure OverdueDisplayRow where
  txId : String
  book : Except String String
  user : Except String String
  dueDate : String
  overdueDays : String
deriving Repr

/-- Embedding of the per-row dict built for the overdue table. -/
def overdueRow (r : TxRow) : OverdueDisplayRow :=
  { txId := r.transactionId
    book := nestedDisplay r.bookId "title"
    user := nestedDisplay r.userId "name"
    dueDate := r.dueDate.getD ""
    overdueDays := r.overdueDays.getD "N/A" }

/-- Embedding of the return-flow option string built at line 590 for a
whole row: the nested projections (with their `'Unknown'` fallback)
feed `buildTransactionOption`. -/
def returnOptionOfRow (r : TxRow) : Except String (List Char) := do
  let bt ← nestedDisplay r.bookId "title"
  let un ← nestedDisplay r.userId "name"
  pure (buildTransactionOption r.transactionId.data bt.data un.data
    ((r.dueDate.getD "").data))

/-- The columns of the recent-activity table on the dashboard (lines
337-342): the base columns always, plus a `Book`/`User` column added
only when the corresponding field *of the first row* is a dict. -/
def recentActivityColumns (rows : List TxRow) : List String :=
  ["transactionId", "status", "borrowDate"] ++
    (match rows.head? with
     | some r =>
         (if r.bookId.isDict then ["Book"] else []) ++
         (if r.userId.isDict then ["User"] else [])
     | none => [])

/-- The cells of the recent-activity `Book` column: `none` when the
column is not added at all (first row's `bookId` is not a dict);
otherwise each cell is `x.get('title', 'N/A')`, whose error case
models the `AttributeError` on a non-dict later row. -/
def recentActivityBook (rows : List TxRow) : Option (List (Except String String)) :=
  match rows.head? with
  | some r =>
      if r.bookId.isDict then
        some (rows.map (fun t => pyGet t.bookId "title" "N/A"))
      else none
  | none => none

/-- The cells of the recent-activity `User` column, symmetric to
`recentActivityBook`. -/
def recentActivityUser (rows : List TxRow) : Option (List (Except String String)) :=
  match rows.head? with
  | some r =>
      if r.userId.isDict then
        some (rows.map (fun t => pyGet t.userId "name" "N/A"))
      else none
  | none => none

/-! ### Add-book and add-user form submission -/

/-- The JSON payload of `POST /books` as assembled at lines 381-390;
`none` is JSON `null`. -/
structure BookPayload where
  title : String
  author : String
  category : String
  isbn : Option String
  totalCopies : Nat
  availableCopies : Nat
  publishedYear : Option Nat
  description : Option String
deriving Repr, DecidableEq

/-- The JSON payload of `POST /users` as assembled at lines 504-509. -/
structure UserPayload where
  name : String
  email : String
  userType : String
  department : Option String
deriving Repr, DecidableEq

/-- An API write issued by a form handler. -/
inductive ApiCall where
  | postBooks (p : BookPayload)
  | postUsers (p : UserPayload)
deriving Repr, DecidableEq

/-- The `book_data` dict: `isbn if isbn else None` and
`description if description else None` turn the empty string into
`null`; `published_year if published_year else None` turns 0 into
`null`; `availableCopies` is set to the submitted `totalCopies`. -/
def mkBookPayload (title author category isbn : String)
    (totalCopies publishedYear : Nat) (description : String) : BookPayload :=
  { title := title
    author := author
    category := category
    isbn := if isbn = "" then none else some isbn
    totalCopies := totalCopies
    availableCopies := totalCopies
    publishedYear := if publishedYear = 0 then none else some publishedYear
    description := if description = "" then none else some description }

/-- Embedding of the add-book submit handler (lines 379-398): the API
calls issued and whether the `"Please fill in all required fields"`
validation error is shown.  `if title and author and category` is
Python string truthiness, i.e. all three non-empty. -/
def addBookSubmit (title author category isbn : String)
    (totalCopies publishedYear : Nat) (description : String) :
    List ApiCall × Bool :=
  if title ≠ "" ∧ author ≠ "" ∧ category ≠ "" then
    ([.postBooks (mkBookPayload title author category isbn totalCopies
        publishedYear description)], false)
  else
    ([], true)

/-- The `user_data` dict: `department if department else None`. -/
def mkUserPayload (name email userType department : String) : UserPayload :=
  { name := name
    email := email
    userType := userType
    department := if department = "" then none else some department }

/-- Embedding of the add-user submit handler (lines 502-517). -/
def addUserSubmit (name email userType department : String) :
    List ApiCall × Bool :=
  if name ≠ "" ∧ email ≠ "" ∧ userType ≠ "" then
    ([.postUsers (mkUserPayload name email userType department)], false)
  else
    ([], true)

/-! ### Dashboard page and connection probe -/

/-- API reads issued while rendering the dashboard page. -/
inductive DashCall where
  | getHealth
  | getDashboardStats
  | getTransactions (limit : Nat)
deriving Repr, DecidableEq

/-- A rendering event of the dashboard page, in emission order. -/
inductive RenderItem where
  | brandHeader
  | connectivityError
  | subHeader (s : String)
  | metric (label : String) (value : Int)
  | pieChart (title : String)
  | barChart (title : String)
  | table (cols : List String)
deriving Repr, DecidableEq

/-- The `data.overview` block of the dashboard-stats payload. -/
structure Overview where
  totalBooks : Int
  availableBooks : Int
  totalUsers : Int
  activeBorrows : Int
  totalTransactions : Int
  overdueBooks : Int
deriving Repr, DecidableEq

/-- The dashboard-stats response body. -/
structure StatsBody where
  success : Bool
  overview : Overview
  popularCategories : List (String × Int)
  userTypeStats : List (String × Int)
deriving Repr, DecidableEq

/-- The transactions response body. -/
structure TransBody where
  success : Bool
  data : List TxRow
deriving Repr, DecidableEq

/-- What the backend answers during one dashboard render pass:
`none` for any request on which `_make_request` returned `None`. -/
structure DashboardEnv where
  health : Option (List (String × String))
  stats : Option StatsBody
  transactions : Option TransBody
deriving Repr, DecidableEq

/-- Embedding of `check_connection`: `health and health.get('status') == 'OK'`.
A missing response, an empty dict (falsy in Python) and a dict whose
`status` is not `'OK'` all yield `false`. -/
def checkConnection (health : Option (List (String × String))) : Bool :=
  match health with
  | some d => d.lookup "status" == some "OK"
  | none => false

/-- The six `st.metric` widgets of the overview block. -/
def overviewMetrics (o : Overview) : List RenderItem :=
  [.metric "Total Books" o.totalBooks,
   .metric "Available Books" o.availableBooks,
   .metric "Total Users" o.totalUsers,
   .metric "Active Borrows" o.activeBorrows,
   .metric "Total Transactions" o.totalTransactions,
   .metric "Overdue Books" o.overdueBooks]

/-- The recent-activity block (lines 333-344): shown only when the
transactions fetch succeeded, its `success` flag is set and the data
is non-empty. -/
def recentActivitySection (tr : Option TransBody) : List RenderItem :=
  match tr with
  | some t =>
      if t.success then
        if t.data.isEmpty then [] else [.table (recentActivityColumns t.data)]
      else []
  | none => []

/-- Embedding of `main_page` as a trace: the render events emitted and
the API calls issued, in order.  The brand header is rendered first;
then `check_connection` issues the health probe, and on a failed probe
the function shows the connectivity error and returns early. -/
def mainPage (env : DashboardEnv) : List RenderItem × List DashCall :=
  if checkConnection env.health then
    match env.stats with
    | some s =>
        if s.success then
          ([RenderItem.brandHeader, .subHeader "Dashboard Overview"]
             ++ overviewMetrics s.overview
             ++ (if s.popularCategories.isEmpty then []
                 else [RenderItem.pieChart "Popular Book Categories"])
             ++ (if s.userTypeStats.isEmpty then []
                 else [RenderItem.barChart "Borrowing by User Type"])
             ++ [RenderItem.subHeader "Recent Activity"]
             ++ recentActivitySection env.transactions,
           [.getHealth, .getDashboardStats, .getTransactions 10])
        else
          ([RenderItem.brandHeader, .subHeader "Dashboard Overview"],
           [.getHealth, .getDashboardStats])
    | none =>
        ([RenderItem.brandHeader, .subHeader "Dashboard Overview"],
         [.getHealth, .getDashboardStats])
  else
    ([RenderItem.brandHeader, .connectivityError], [.getHealth])

/-!
## Theorems

One theorem per claim of the specification, with witnesses for the
hypothesised ones and counterexamples where the claim fails on the code.
-/

/-- C1: on a status-200 response whose JSON body carries
`success: false`, `_make_request` does **not** treat the response as a
failure: it returns the parsed body to the caller (not an absent
result) and shows no error banner.  The client branches on the HTTP
status alone; the embedded `success` flag is never consulted inside
`_make_request`. -/
theorem C1_status200_success_false_returns_body :
    make_request "GET" (.response 200 (.ok successFalseBody))
      = (some successFalseBody, []) ∧
    (match successFalseBody with
     | .obj fields => fields.lookup "success"
     | _ => none) = some (.bool false) := by
  exact ⟨rfl, rfl⟩

/-- C8: for every response whose status is not 2xx, `_make_request`
returns an absent result, displays exactly one error banner, and when
the body parses to an object carrying an `error` field the banner is
derived from that field; every failure path is an explicit branch of
the embedding, so no exception escapes the client. -/
theorem C8_non2xx_returns_none_with_banner (m : String) (code : Nat)
    (body : Except String JVal) (hm : validMethod m = true)
    (hc : ¬ (200 ≤ code ∧ code ≤ 299)) :
    (make_request m (.response code body)).1 = none ∧
    (make_request m (.response code body)).2.length = 1 ∧
    (∀ fs v, body = .ok (.obj fs) → fs.lookup "error" = some v →
      (make_request m (.response code body)).2 = [.apiError code v]) := by
  have h200 : (code == 200) = false := by
    simp only [beq_eq_false_iff_ne, ne_eq]
    rintro rfl
    exact hc ⟨by norm_num, by norm_num⟩
  cases body with
  | error e =>
      refine ⟨by simp [make_request, hm, h200], by simp [make_request, hm, h200], ?_⟩
      intro fs v h _
      simp at h
  | ok j =>
      rcases hE : errorMsgOf j with e | msg
      · refine ⟨by simp [make_request, hm, h200, hE],
          by simp [make_request, hm, h200, hE], ?_⟩
        intro fs v h1 h2
        injection h1 with h1'
        subst h1'
        simp [errorMsgOf, h2] at hE
      · refine ⟨by simp [make_request, hm, h200, hE],
          by simp [make_request, hm, h200, hE], ?_⟩
        intro fs v h1 h2
        injection h1 with h1'
        subst h1'
        simp only [errorMsgOf, h2, Option.getD_some, Except.ok.injEq] at hE
        subst hE
        simp [make_request, hm, h200, errorMsgOf, h2]

/-- C8 witness: a concrete 404 with `{"error": "not found"}` yields an
absent result and the banner built from the error field. -/
theorem C8_non2xx_witness :
    (make_request "GET" (.response 404 (.ok (.obj [("error", .str "not found")])))).1
        = none ∧
    (make_request "GET" (.response 404 (.ok (.obj [("error", .str "not found")])))).2
        = [.apiError 404 (.str "not found")] := by
  have h := C8_non2xx_returns_none_with_banner "GET" 404
    (.ok (.obj [("error", .str "not found")])) (by decide) (by omega)
  exact ⟨h.1, h.2.2 [("error", .str "not found")] (.str "not found") rfl rfl⟩

/-- C9: `_make_request` is total at its boundary: the only way it
hands a parsed JSON value to the caller is a dispatched method with a
status-200 response whose body parses; in every other situation —
including a method string outside GET/POST/PUT/DELETE, whose unbound
`response` variable raises `NameError` inside the `try` block — the
exception is caught and mapped to `None`. -/
theorem C9_make_request_total (m : String) (o : ReqOutcome) :
    (∀ j, (make_request m o).1 = some j ↔
        validMethod m = true ∧ o = .response 200 (.ok j)) ∧
    (validMethod m = false →
      make_request m o = (none, [.excBanner "NameError: name response is not defined"])) := by
  constructor
  · intro j
    constructor
    · intro h
      cases hv : validMethod m with
      | false => simp [make_request, hv] at h
      | true =>
        refine ⟨rfl, ?_⟩
        cases o with
        | connError => simp [make_request, hv] at h
        | timeoutErr => simp [make_request, hv] at h
        | otherExc e => simp [make_request, hv] at h
        | response code body =>
          cases hc : (code == 200) with
          | true =>
            cases body with
            | ok j' =>
                have hj : j' = j := by simpa [make_request, hv, hc] using h
                subst hj
                have : code = 200 := by simpa using hc
                subst this
                rfl
            | error e => simp [make_request, hv, hc] at h
          | false =>
            cases body with
            | error e => simp [make_request, hv, hc] at h
            | ok j' =>
              rcases hE : errorMsgOf j' with e | msg <;>
                simp [make_request, hv, hc, hE] at h
    · rintro ⟨hv, rfl⟩
      simp [make_request, hv]
  · intro hv
    cases o <;> simp [make_request, hv]

/-- C9 witness: a PATCH request (outside the dispatched methods) with
an arbitrary outcome is mapped to `None` plus the NameError banner,
and a 200 response with a parsing body is the unique `some` case. -/
theorem C9_make_request_total_witness :
    make_request "PATCH" (.response 200 (.ok .null))
        = (none, [.excBanner "NameError: name response is not defined"]) ∧
    (make_request "GET" (.response 200 (.ok .null))).1 = some .null := by
  refine ⟨(C9_make_request_total "PATCH" (.response 200 (.ok .null))).2 rfl, ?_⟩
  exact ((C9_make_request_total "GET" (.response 200 (.ok .null))).1 .null).mpr
    ⟨rfl, rfl⟩

/-- Helper: when the scanned list starts with the separator, the split
head is empty. -/
theorem splitHead_eq_nil_of_sep_lead {l : List Char} (h : sepL <+: l) :
    splitHead sepL l = [] := by
  cases l with
  | nil =>
      rw [List.prefix_nil] at h
      simp [sepL] at h
  | cons c rest =>
      have hb : sepL.isPrefixOf (c :: rest) = true :=
        List.isPrefixOf_iff_prefix.mpr h
      simp [splitHead, hb]

/-- Helper: when the scanned list does not start with the separator,
the split head keeps the first character and recurses. -/
theorem splitHead_cons_of_no_sep (c : Char) (l : List Char)
    (h : ¬ sepL <+: (c :: l)) :
    splitHead sepL (c :: l) = c :: splitHead sepL l := by
  have hb : sepL.isPrefixOf (c :: l) = false := by
    cases hb : sepL.isPrefixOf (c :: l) with
    | false => rfl
    | true => exact absurd (List.isPrefixOf_iff_prefix.mp hb) h
  simp [splitHead, hb]

/-- Helper: splitting `tid ++ " - " ++ r` at the first `" - "` returns
`tid`, provided `tid` neither contains `" - "` nor ends in `" -"`
(either would create an occurrence of the separator before the
inserted one). -/
theorem splitHead_append_sep (r : List Char) :
    ∀ tid : List Char, ¬ sepL <:+: tid → ¬ ([' ', '-'] <:+ tid) →
      splitHead sepL (tid ++ (sepL ++ r)) = tid := by
  intro tid
  induction tid with
  | nil =>
      intro _ _
      rw [List.nil_append]
      exact splitHead_eq_nil_of_sep_lead (List.prefix_append sepL r)
  | cons c tid ih =>
      intro h1 h2
      have hnp : ¬ sepL <+: (c :: (tid ++ (sepL ++ r))) := by
        intro hpre
        simp only [sepL] at hpre
        rw [List.cons_prefix_cons] at hpre
        obtain ⟨hc, hpre⟩ := hpre
        cases tid with
        | nil =>
            simp only [List.nil_append, sepL, List.cons_append,
              List.cons_prefix_cons] at hpre
            exact absurd hpre.1 (by decide)
        | cons d tid' =>
            rw [List.cons_append, List.cons_prefix_cons] at hpre
            obtain ⟨hd, hpre⟩ := hpre
            cases tid' with
            | nil =>
                apply h2
                rw [← hc, ← hd]
            | cons e tid'' =>
                rw [List.cons_append, List.cons_prefix_cons] at hpre
                obtain ⟨he, _⟩ := hpre
                apply h1
                apply List.IsPrefix.isInfix
                show sepL <+: (c :: d :: e :: tid'')
                rw [show sepL = [' ', '-', ' '] from rfl, ← hc, ← hd, ← he]
                exact ⟨tid'', rfl⟩
      rw [List.cons_append, splitHead_cons_of_no_sep _ _ hnp]
      rw [ih (fun h => h1 (List.infix_cons h))
        (fun h => h2 (h.trans (List.suffix_cons c tid)))]

/-- C2 (amended): building the return-flow selector string and parsing
the transaction id back out reproduces the id exactly, for every id
that neither contains the separator `" - "` nor ends in `" -"` (an id
ending in `" -"` merges with the leading space of the inserted
separator and creates an earlier occurrence). -/
theorem C2_selector_roundtrip (tid title uname due : List Char)
    (h1 : ¬ sepL <:+: tid) (h2 : ¬ ([' ', '-'] <:+ tid)) :
    parseTransactionId (buildTransactionOption tid title uname due) = tid := by
  have hb : buildTransactionOption tid title uname due
      = tid ++ (sepL ++ (title ++ (userSeg ++ (uname ++ (dueSeg ++ (due ++ closeSeg)))))) := by
    simp [buildTransactionOption, List.append_assoc]
  rw [parseTransactionId, hb]
  exact splitHead_append_sep _ tid h1 h2

/-- C2 counterexample: the id `"A -"` does not contain `" - "`, yet
the round trip truncates it to `"A"`: the claim as stated fails. -/
theorem C2_selector_roundtrip_counterexample :
    ¬ (sepL <:+: ['A', ' ', '-']) ∧
    parseTransactionId
        (buildTransactionOption ['A', ' ', '-'] ['B'] ['C'] ['D']) = ['A'] ∧
    (['A'] : List Char) ≠ ['A', ' ', '-'] := by
  refine ⟨by decide, by decide, by decide⟩

/-- C2 witness: the round trip is exact on the id `"TXN001"`. -/
theorem C2_selector_roundtrip_witness :
    parseTransactionId (buildTransactionOption ("TXN001").data ("Dune").data
      ("Avi").data ("2024-01-01").data) = ("TXN001").data :=
  C2_selector_roundtrip _ _ _ _ (by decide) (by decide)

/-- C3: when at least one book has zero available copies, the
borrow-flow filter offers exactly the books with a positive
available-copy count: membership in the filtered list is equivalent to
membership in the input with `availableCopies > 0`, and every
zero-copy book of the input is excluded. -/
theorem C3_borrow_filter_exact (books : List Book)
    (_hzero : ∃ b ∈ books, b.availableCopies = 0) :
    (∀ b, b ∈ availableBooks books ↔ b ∈ books ∧ 0 < b.availableCopies) ∧
    (∀ b ∈ books, b.availableCopies = 0 → b ∉ availableBooks books) := by
  constructor
  · intro b
    simp [availableBooks, List.mem_filter]
  · intro b _ h0
    simp [availableBooks, List.mem_filter, h0]

/-- C3 witness: in a two-book list where the first has zero available
copies, the filter drops the first book and keeps the second. -/
theorem C3_borrow_filter_exact_witness :
    (⟨"1", "A", "a", 0⟩ : Book)
        ∉ availableBooks [⟨"1", "A", "a", 0⟩, ⟨"2", "B", "b", 3⟩] ∧
    (⟨"2", "B", "b", 3⟩ : Book)
        ∈ availableBooks [⟨"1", "A", "a", 0⟩, ⟨"2", "B", "b", 3⟩] := by
  have h := C3_borrow_filter_exact [⟨"1", "A", "a", 0⟩, ⟨"2", "B", "b", 3⟩]
    ⟨⟨"1", "A", "a", 0⟩, by decide, rfl⟩
  exact ⟨h.2 _ (by decide) rfl, (h.1 _).mpr ⟨by decide, by decide⟩⟩

/-- Helper: `find?` returns the head of the corresponding `filter`. -/
theorem find?_eq_head?_of_filter {α : Type} (p : α → Bool) (l : List α) :
    l.find? p = (l.filter p).head? := by
  induction l with
  | nil => rfl
  | cons a l ih =>
    cases h : p a with
    | true => rw [List.find?_cons_of_pos _ h, List.filter_cons_of_pos h, List.head?_cons]
    | false => rw [List.find?_cons_of_neg _ (by simp [h]),
        List.filter_cons_of_neg (by simp [h]), ih]

/-- C4 (amended): when the payload has no `borrowCount` column, every
column named `count` (if any) is numeric, and exactly one column is
numeric, the fallback selects that numeric column; and in general the
selection follows the ordered name-based preference `borrowCount`,
then `count` (by name, regardless of dtype), then the first numeric
column found. -/
theorem C4_column_fallback (cols : List Col) (c : Col)
    (hnb : ∀ col ∈ cols, col.name ≠ "borrowCount")
    (hcnt : ∀ col ∈ cols, col.name = "count" → col.numeric = true)
    (huniq : cols.filter (fun col => col.numeric) = [c]) :
    selectYColumn cols = some c.name ∧
    (∀ cols' : List Col, cols'.any (fun col => col.name == "borrowCount") = true →
      selectYColumn cols' = some "borrowCount") ∧
    (∀ cols' : List Col, cols'.any (fun col => col.name == "borrowCount") = false →
      cols'.any (fun col => col.name == "count") = true →
      selectYColumn cols' = some "count") ∧
    (∀ (cols' : List Col) (c' : Col),
      cols'.any (fun col => col.name == "borrowCount") = false →
      cols'.any (fun col => col.name == "count") = false →
      cols'.find? (fun col => col.numeric) = some c' →
      selectYColumn cols' = some c'.name) := by
  refine ⟨?_, ?_, ?_, ?_⟩
  · have hb : cols.any (fun col => col.name == "borrowCount") = false := by
      rw [List.any_eq_false]
      intro col hcol
      simpa using hnb col hcol
    cases hco : cols.any (fun col => col.name == "count") with
    | true =>
        obtain ⟨col, hcolmem, hcolname⟩ := List.any_eq_true.mp hco
        have hname : col.name = "count" := by simpa using hcolname
        have hnum : col.numeric = true := hcnt col hcolmem hname
        have hmem : col ∈ cols.filter (fun col => col.numeric) :=
          List.mem_filter.mpr ⟨hcolmem, hnum⟩
        rw [huniq, List.mem_singleton] at hmem
        subst hmem
        rw [hname]
        simp [selectYColumn, hb, hco]
    | false =>
        have hf : cols.find? (fun col => col.numeric) = some c := by
          rw [find?_eq_head?_of_filter, huniq, List.head?_cons]
        simp [selectYColumn, hb, hco, hf]
  · intro cols' h
    simp [selectYColumn, h]
  · intro cols' h1 h2
    simp [selectYColumn, h1, h2]
  · intro cols' c' h1 h2 h3
    simp [selectYColumn, h1, h2, h3]

/-- C4 counterexample: a payload without `borrowCount`, with exactly
one numeric column `x`, but with a non-numeric column named `count`:
the code selects `count`, not the numeric column, so the claim as
stated fails. -/
theorem C4_column_fallback_counterexample :
    (∀ col ∈ ([⟨"title", false⟩, ⟨"count", false⟩, ⟨"x", true⟩] : List Col),
      col.name ≠ "borrowCount") ∧
    ([⟨"title", false⟩, ⟨"count", false⟩, ⟨"x", true⟩] : List Col).filter
        (fun col => col.numeric) = [⟨"x", true⟩] ∧
    selectYColumn [⟨"title", false⟩, ⟨"count", false⟩, ⟨"x", true⟩]
        = some "count" ∧
    ("count" : String) ≠ "x" := by
  exact ⟨by decide, by decide, by decide, by decide⟩

/-- C4 witness: with columns `title` (non-numeric) and `x` (the sole
numeric column) the fallback selects `x`. -/
theorem C4_column_fallback_witness :
    selectYColumn [⟨"title", false⟩, ⟨"x", true⟩] = some "x" :=
  (C4_column_fallback [⟨"title", false⟩, ⟨"x", true⟩] ⟨"x", true⟩
    (by decide) (by decide) (by decide)).1

/-- C5 (amended): a plain-string `bookId`/`userId` renders as
`"Unknown"`, without error, in the return-flow selector, the
all-transactions table and the overdue table; the recent-activity
table is different: it checks only the first row, and when that row's
`bookId` (resp. `userId`) is not a dict it omits the `Book` (resp.
`User`) column entirely instead of rendering `"Unknown"`. -/
theorem C5_string_field_display (s key : String) (r : TxRow)
    (rows : List TxRow) (r0 : TxRow) :
    nestedDisplay (.str s) key = .ok "Unknown" ∧
    (r.bookId = .str s →
      (allTransactionsRow r).book = .ok "Unknown" ∧
      (overdueRow r).book = .ok "Unknown") ∧
    (r.userId = .str s →
      (allTransactionsRow r).user = .ok "Unknown" ∧
      (overdueRow r).user = .ok "Unknown") ∧
    (rows.head? = some r0 → r0.bookId.isDict = false →
      recentActivityBook rows = none ∧
      "Book" ∉ recentActivityColumns rows) ∧
    (rows.head? = some r0 → r0.userId.isDict = false →
      recentActivityUser rows = none ∧
      "User" ∉ recentActivityColumns rows) := by
  refine ⟨rfl, ?_, ?_, ?_, ?_⟩
  · intro h
    exact ⟨by simp [allTransactionsRow, h, nestedDisplay],
      by simp [overdueRow, h, nestedDisplay]⟩
  · intro h
    exact ⟨by simp [allTransactionsRow, h, nestedDisplay],
      by simp [overdueRow, h, nestedDisplay]⟩
  · intro hh hd
    constructor
    · simp [recentActivityBook, hh, hd]
    · cases hu : r0.userId.isDict <;>
        simp [recentActivityColumns, hh, hd, hu]
  · intro hh hd
    constructor
    · simp [recentActivityUser, hh, hd]
    · cases hb : r0.bookId.isDict <;>
        simp [recentActivityColumns, hh, hd, hb]

/-- C5 counterexample: on a transaction whose `bookId` is the plain
string `"b1"`, the recent-activity table renders no book cell at all —
its columns are just the three base columns, with no `Book` column and
hence no `"Unknown"` placeholder — refuting the claim that all four
display sites render `"Unknown"`. -/
theorem C5_string_field_display_counterexample :
    (TxRow.mk "T1" "borrowed" "2024-01-01" none none none
        (.str "b1") (.str "u1")).bookId = .str "b1" ∧
    recentActivityBook [TxRow.mk "T1" "borrowed" "2024-01-01" none none none
        (.str "b1") (.str "u1")] = none ∧
    recentActivityColumns [TxRow.mk "T1" "borrowed" "2024-01-01" none none none
        (.str "b1") (.str "u1")] = ["transactionId", "status", "borrowDate"] := by
  exact ⟨rfl, rfl, rfl⟩

/-- C5 witness: the `"Unknown"` fallback and the omitted recent-activity
`Book` and `User` columns, at a concrete row. -/
theorem C5_string_field_display_witness :
    nestedDisplay (.str "b9") "title" = .ok "Unknown" ∧
    recentActivityBook [TxRow.mk "X" "s" "d" none none none
        (.str "b9") (.str "u9")] = none ∧
    recentActivityUser [TxRow.mk "X" "s" "d" none none none
        (.str "b9") (.str "u9")] = none := by
  have h := C5_string_field_display "b9" "title"
    (TxRow.mk "X" "s" "d" none none none (.str "b9") (.str "u9"))
    [TxRow.mk "X" "s" "d" none none none (.str "b9") (.str "u9")]
    (TxRow.mk "X" "s" "d" none none none (.str "b9") (.str "u9"))
  exact ⟨h.1, (h.2.2.2.1 rfl rfl).1, (h.2.2.2.2 rfl rfl).1⟩

/-- C6: with all required fields (title, author, category) non-empty,
the add-book submit handler issues exactly one `POST /books` whose
payload has `availableCopies` equal to the submitted `totalCopies`,
and shows no validation error; with any required field empty it issues
no API call and shows the validation error. -/
theorem C6_add_book_submit (title author category isbn : String)
    (totalCopies publishedYear : Nat) (description : String) :
    (title ≠ "" → author ≠ "" → category ≠ "" →
      addBookSubmit title author category isbn totalCopies publishedYear description
          = ([.postBooks (mkBookPayload title author category isbn totalCopies
              publishedYear description)], false) ∧
      (mkBookPayload title author category isbn totalCopies publishedYear
          description).availableCopies = totalCopies ∧
      (mkBookPayload title author category isbn totalCopies publishedYear
          description).totalCopies = totalCopies) ∧
    (¬ (title ≠ "" ∧ author ≠ "" ∧ category ≠ "") →
      addBookSubmit title author category isbn totalCopies publishedYear description
          = ([], true)) := by
  constructor
  · intro h1 h2 h3
    exact ⟨by simp [addBookSubmit, h1, h2, h3], rfl, rfl⟩
  · intro h
    simp only [addBookSubmit, if_neg h]

/-- C6 witness: a fully filled form posts one payload with
`availableCopies = totalCopies = 3`; a form with an empty title makes
no call and shows the error. -/
theorem C6_add_book_submit_witness :
    addBookSubmit "T" "A" "Cat" "" 3 2020 ""
        = ([.postBooks (mkBookPayload "T" "A" "Cat" "" 3 2020 "")], false) ∧
    (mkBookPayload "T" "A" "Cat" "" 3 2020 "").availableCopies = 3 ∧
    addBookSubmit "" "A" "Cat" "" 3 2020 "" = ([], true) := by
  have h := C6_add_book_submit "T" "A" "Cat" "" 3 2020 ""
  have h0 := C6_add_book_submit "" "A" "Cat" "" 3 2020 ""
  exact ⟨(h.1 (by decide) (by decide) (by decide)).1,
    (h.1 (by decide) (by decide) (by decide)).2.1,
    h0.2 (by simp)⟩

/-- C7: whenever the health probe does not report an `OK` status (an
absent response, or a body whose `status` field is not `'OK'`), the
dashboard render pass emits only the static brand header and the
connectivity error, and issues no API call beyond the health probe
itself — in particular no analytics or transaction call. -/
theorem C7_dashboard_blocked_on_bad_health (env : DashboardEnv)
    (h : checkConnection env.health = false) :
    mainPage env = ([.brandHeader, .connectivityError], [.getHealth]) := by
  simp [mainPage, h]

/-- C7 witness: both an absent health response and a non-`OK` status
value block the dashboard. -/
theorem C7_dashboard_blocked_witness :
    mainPage ⟨none, some ⟨true, ⟨1, 1, 1, 1, 1, 1⟩, [], []⟩, none⟩
        = ([.brandHeader, .connectivityError], [.getHealth]) ∧
    mainPage ⟨some [("status", "ERROR")], none, none⟩
        = ([.brandHeader, .connectivityError], [.getHealth]) :=
  ⟨C7_dashboard_blocked_on_bad_health _ rfl,
   C7_dashboard_blocked_on_bad_health _ (by decide)⟩

/-- C10: in the payloads built by the add-book and add-user handlers,
an optional free-text field left empty (ISBN, description, department)
is sent as `null` (`none`), never as the empty string, while the
required fields pass through unchanged. -/
theorem C10_optional_fields_null (title author category isbn : String)
    (totalCopies publishedYear : Nat) (description : String)
    (name email userType department : String) :
    ((mkBookPayload title author category isbn totalCopies publishedYear
        description).title = title ∧
     (mkBookPayload title author category isbn totalCopies publishedYear
        description).author = author ∧
     (mkBookPayload title author category isbn totalCopies publishedYear
        description).category = category ∧
     (isbn = "" → (mkBookPayload title author category isbn totalCopies
        publishedYear description).isbn = none) ∧
     (isbn ≠ "" → (mkBookPayload title author category isbn totalCopies
        publishedYear description).isbn = some isbn) ∧
     (mkBookPayload title author category isbn totalCopies publishedYear
        description).isbn ≠ some "" ∧
     (description = "" → (mkBookPayload title author category isbn totalCopies
        publishedYear description).description = none) ∧
     (description ≠ "" → (mkBookPayload title author category isbn totalCopies
        publishedYear description).description = some description) ∧
     (mkBookPayload title author category isbn totalCopies publishedYear
        description).description ≠ some "") ∧
    ((mkUserPayload name email userType department).name = name ∧
     (mkUserPayload name email userType department).email = email ∧
     (mkUserPayload name email userType department).userType = userType ∧
     (department = "" → (mkUserPayload name email userType department).department
        = none) ∧
     (department ≠ "" → (mkUserPayload name email userType department).department
        = some department) ∧
     (mkUserPayload name email userType department).department ≠ some "") := by
  refine ⟨⟨rfl, rfl, rfl, ?_, ?_, ?_, ?_, ?_, ?_⟩, rfl, rfl, rfl, ?_, ?_, ?_⟩
  · intro h; simp [mkBookPayload, h]
  · intro h; simp [mkBookPayload, h]
  · by_cases h : isbn = "" <;> simp [mkBookPayload, h]
  · intro h; simp [mkBookPayload, h]
  · intro h; simp [mkBookPayload, h]
  · by_cases h : description = "" <;> simp [mkBookPayload, h]
  · intro h; simp [mkUserPayload, h]
  · intro h; simp [mkUserPayload, h]
  · by_cases h : department = "" <;> simp [mkUserPayload, h]

/-- C10 witness: concrete submissions with the optional fields empty
produce `null` for ISBN, description and department, and keep the
required fields. -/
theorem C10_optional_fields_null_witness :
    (mkBookPayload "T" "A" "Cat" "" 2 0 "").isbn = none ∧
    (mkBookPayload "T" "A" "Cat" "" 2 0 "").description = none ∧
    (mkBookPayload "T" "A" "Cat" "" 2 0 "").title = "T" ∧
    (mkUserPayload "N" "n@x" "student" "").department = none := by
  have h := C10_optional_fields_null "T" "A" "Cat" "" 2 0 "" "N" "n@x" "student" ""
  exact ⟨h.1.2.2.2.1 rfl, h.1.2.2.2.2.2.2.1 rfl, h.1.1, h.2.2.2.2.1 rfl⟩

end EpcetLib
